import Mathlib

/-!
Shallow embedding of the `tiny_serial` Linux serial-driver example
(`src/tty/tiny_serial.c`), covering the timer / transmit-drain core:
`tiny_tx_chars`, `tiny_timer`, `tiny_tx_empty`, `tiny_startup`,
`tiny_shutdown` and the timer cleanup in `tiny_exit`.

Machine integers are modelled as `Nat` (all the relevant C values are
non-negative and small); the circular-buffer index arithmetic keeps the
source's bitmask form `x & (UART_XMIT_SIZE - 1)` as `x &&& (UART_XMIT_SIZE - 1)`.
Nullable kernel pointers (`port`, `port->state`, the tty, the global
`timer`) are modelled as `Option`.
-/

/-- Constant `UART_XMIT_SIZE` from `linux/serial_core.h`: capacity of the circular
transmit buffer (`PAGE_SIZE`, 4096 on the reference configuration). -/
def UART_XMIT_SIZE : Nat := 4096

/-- Constant `WAKEUP_CHARS` from `linux/serial_core.h`: low-water mark below which
`uart_write_wakeup` is signalled after a drain. -/
def WAKEUP_CHARS : Nat := 256

/-- Constant `TINY_DATA_CHARACTER` (the letter t, ASCII 116): the synthetic
byte the timer injects into the receive path. -/
def TINY_DATA_CHARACTER : Nat := 116

/-- Constant `DELAY_TIME`, defined in the source as `HZ * 2`: the arm/re-arm
delay in jiffies (scheduler ticks), parameterised by the kernel's `HZ`
(ticks per second), so it denotes two seconds. -/
def DELAY_TIME (HZ : Nat) : Nat := HZ * 2

/-- Constant `ENOMEM` (12); `tiny_startup` returns `-ENOMEM` on allocation
failure. -/
def ENOMEM : Int := 12

/-- Structure `circ_buf` as used through `port->state->xmit`: byte store plus
producer (`head`) and consumer (`tail`) indices. The store is a total map
from index to byte value; the drain only reads it. -/
structure CircBuf where
  buf : Nat → Nat
  head : Nat
  tail : Nat

/-- Predicate `uart_circ_empty(circ)` from `linux/serial_core.h`:
`((circ)->head == (circ)->tail)`. -/
def uart_circ_empty (c : CircBuf) : Bool := c.head == c.tail

/-- Count `uart_circ_chars_pending(circ)` from `linux/serial_core.h`:
`(((circ)->head - (circ)->tail) & (UART_XMIT_SIZE-1))`.
For in-range indices (`head, tail < UART_XMIT_SIZE`) the C mask of the
(possibly negative) difference equals this non-negative modular form. -/
def uart_circ_chars_pending (c : CircBuf) : Nat :=
  (c.head + UART_XMIT_SIZE - c.tail) % UART_XMIT_SIZE

/-- The do-while drain loop body plus its continuation test from
`tiny_tx_chars`:

```
do {
    pr_info(...);                   log xmit->buf[xmit->tail]
    xmit->tail = (xmit->tail + 1) & (UART_XMIT_SIZE - 1);
    port->icount.tx++;
    if (uart_circ_empty(xmit))
        break;
} while (--count > 0);
```

The body always runs once (do-while); the loop then continues while the
buffer is non-empty and the decremented `count` is still positive, i.e.
while the incoming `count` exceeds 1. For `count ≤ 1` the single body run
is the result whether or not the break on emptiness fires, so those two
cases collapse. Returns the updated ring and transmit counter. -/
def tx_drain_loop : CircBuf → Nat → Nat → CircBuf × Nat
  | c, tx, 0 => ({ c with tail := (c.tail + 1) &&& (UART_XMIT_SIZE - 1) }, tx + 1)
  | c, tx, 1 => ({ c with tail := (c.tail + 1) &&& (UART_XMIT_SIZE - 1) }, tx + 1)
  | c, tx, n + 2 =>
    let c' : CircBuf := { c with tail := (c.tail + 1) &&& (UART_XMIT_SIZE - 1) }
    if uart_circ_empty c' then (c', tx + 1)
    else tx_drain_loop c' (tx + 1) (n + 1)

/-- The fields of `struct uart_port` (with the live `port->state->xmit`
ring flattened in) that `tiny_tx_chars` reads and writes. -/
structure TxPort where
  x_char : Nat
  fifosize : Nat
  icount_tx : Nat
  xmit : CircBuf

/-- Observable calls made by one run of `tiny_tx_chars`: whether the
pending `x_char` was written out, whether `uart_write_wakeup` was called,
and whether `tiny_stop_tx` was called. -/
structure TxEvents where
  xchar : Bool
  wakeup : Bool
  stop_tx : Bool
deriving DecidableEq, Repr

/-- Function `tiny_tx_chars(port)`. Argument `tx_stopped` is the externally
supplied value
of `uart_tx_stopped(port)`. Returns the updated port and the observable
calls of this firing. -/
def tiny_tx_chars (p : TxPort) (tx_stopped : Bool) : TxPort × TxEvents :=
  if p.x_char ≠ 0 then
    ({ p with icount_tx := p.icount_tx + 1, x_char := 0 },
     { xchar := true, wakeup := false, stop_tx := false })
  else if uart_circ_empty p.xmit || tx_stopped then
    (p, { xchar := false, wakeup := false, stop_tx := true })
  else
    let count := p.fifosize >>> 1
    let r := tx_drain_loop p.xmit p.icount_tx count
    ({ p with xmit := r.1, icount_tx := r.2 },
     { xchar := false,
       wakeup := decide (uart_circ_chars_pending r.1 < WAKEUP_CHARS),
       stop_tx := uart_circ_empty r.1 })

/-- Function `tiny_tx_empty(port)`: the driver's transmit-empty query,
which ignores its port and returns the constant 0 (never empty). -/
def tiny_tx_empty (_p : TxPort) : Nat := 0

/-- Observable calls made by one firing of `tiny_timer`, in program
order: `tty_insert_flip_char(tty_port, c, 0)`, `tty_flip_buffer_push`,
`add_timer` with the written `expires` value, and the call of
`tiny_tx_chars`. -/
inductive Ev where
  | insert_flip_char (c : Nat)
  | flip_buffer_push
  | add_timer (expires : Nat)
  | tx_chars
deriving DecidableEq, Repr

/-- The part of `struct uart_state` the timer reads: the (nullable)
`state->port.tty` pointer and the `state->xmit` ring. A live tty carries
no further data the core reads, so it is `Option Unit`. -/
structure UartState where
  tty : Option Unit
  xmit : CircBuf

/-- Structure `uart_port` as the timer sees it: the scalar fields used by
`tiny_tx_chars` plus the nullable `port->state` pointer. -/
structure UartPort where
  x_char : Nat
  fifosize : Nat
  icount_tx : Nat
  state : Option UartState

/-- Function `tiny_timer(data)`. Argument `now` is the current `jiffies`, `HZ` the tick
rate, `port` the (nullable) `struct uart_port *` recovered from `data`,
`tx_stopped` the value `uart_tx_stopped` would return. Returns the
updated port and the trace of observable calls of this firing:

```
port = (struct uart_port *)data;
if (!port) return;
if (!port->state) return;
tty = port->state->port.tty;
if (!tty) return;
tty_insert_flip_char(tty_port, TINY_DATA_CHARACTER, 0);
tty_flip_buffer_push(tty_port);
timer->expires = jiffies + DELAY_TIME;
add_timer(timer);
tiny_tx_chars(port);
```
-/
def tiny_timer (now HZ : Nat) (port : Option UartPort) (tx_stopped : Bool) :
    Option UartPort × List Ev :=
  match port with
  | none => (none, [])
  | some p =>
    match p.state with
    | none => (some p, [])
    | some st =>
      match st.tty with
      | none => (some p, [])
      | some _ =>
        let r := tiny_tx_chars ⟨p.x_char, p.fifosize, p.icount_tx, st.xmit⟩ tx_stopped
        (some { p with x_char := r.1.x_char, icount_tx := r.1.icount_tx,
                       state := some { st with xmit := r.1.xmit } },
         [Ev.insert_flip_char TINY_DATA_CHARACTER, Ev.flip_buffer_push,
          Ev.add_timer (now + DELAY_TIME HZ), Ev.tx_chars])

/-- The global `struct timer_list *timer` object once allocated:
`timer->data` (the port reference stored as an integer), `timer->expires`,
and whether the timer is currently in the kernel's active timer list
(set by `add_timer`, cleared by `del_timer`). The constant
`timer->function` field is omitted. -/
structure TimerObj where
  data : Nat
  expires : Nat
  armed : Bool
deriving DecidableEq, Repr

/-- Result of `tiny_startup`: the global `timer` pointer after the call,
the C return value, and whether a fresh `kmalloc` allocation happened. -/
structure StartupResult where
  timer : Option TimerObj
  ret : Int
  freshAlloc : Bool
deriving DecidableEq, Repr

/-- Function `tiny_startup(port)`:

```
if (!timer) {
    timer = kmalloc(sizeof(*timer), GFP_KERNEL);
    if (!timer)
        return -ENOMEM;
}
init_timer(timer);
timer->data = (unsigned long)port;
timer->expires = jiffies + DELAY_TIME;
timer->function = tiny_timer;
add_timer(timer);
return 0;
```

`timer` is the global pointer before the call, `allocOk` whether the
`kmalloc` (if reached) succeeds, `now` the current `jiffies`, `portRef`
the `(unsigned long)port` value. `init_timer` plus the assignments
overwrite every field of a reused object, so success yields the same
timer state whether the object was fresh or reused. -/
def tiny_startup (timer : Option TimerObj) (allocOk : Bool) (now HZ : Nat)
    (portRef : Nat) : StartupResult :=
  match timer with
  | none =>
    if allocOk then
      { timer := some { data := portRef, expires := now + DELAY_TIME HZ, armed := true },
        ret := 0, freshAlloc := true }
    else
      { timer := none, ret := -ENOMEM, freshAlloc := false }
  | some _t =>
      { timer := some { data := portRef, expires := now + DELAY_TIME HZ, armed := true },
        ret := 0, freshAlloc := false }

/-- Kernel API `del_timer(timer)` (from the external timer subsystem): reads
`timer_pending(timer)` through the pointer, so a null argument is a null
dereference (modelled as `Except.error ()`); on a live object it
deactivates a pending timer and is a no-op on an inactive one, never
freeing the object. -/
def del_timer : Option TimerObj → Except Unit TimerObj
  | none => Except.error ()
  | some t => Except.ok { t with armed := false }

/-- Function `tiny_shutdown(port)`: runs `del_timer(timer);` on the global timer
pointer. Returns the surviving timer object, or the null-dereference
fault when the pointer is null. -/
def tiny_shutdown (timer : Option TimerObj) : Except Unit TimerObj :=
  del_timer timer

/-- The timer cleanup in `tiny_exit`:

```
if (!timer)
  kfree(timer);
```

Returns the list of arguments passed to `kfree`: `kfree(NULL)` is called
exactly when the global pointer is null, and an allocated timer object is
never passed to `kfree`. -/
def tiny_exit (timer : Option TimerObj) : List (Option TimerObj) :=
  match timer with
  | none => [none]
  | some _ => []

/-- Bitmask arithmetic of the ring: masking with `UART_XMIT_SIZE - 1` is
reduction modulo `UART_XMIT_SIZE` (a power of two). -/
theorem land_xmit_mask (x : Nat) : x &&& (UART_XMIT_SIZE - 1) = x % UART_XMIT_SIZE := by
  have h1 : UART_XMIT_SIZE - 1 = 2 ^ 12 - 1 := by norm_num [UART_XMIT_SIZE]
  have h2 : UART_XMIT_SIZE = 2 ^ 12 := by norm_num [UART_XMIT_SIZE]
  rw [h1, h2, Nat.and_pow_two_sub_one_eq_mod]

/-- One-step unfolding of `tx_drain_loop` with the bitmask rewritten to
its modular form. -/
theorem tx_drain_loop_unfold (c : CircBuf) (tx count : Nat) :
    tx_drain_loop c tx count =
      if c.head == (c.tail + 1) % UART_XMIT_SIZE then
        ({ c with tail := (c.tail + 1) % UART_XMIT_SIZE }, tx + 1)
      else
        match count with
        | 0 => ({ c with tail := (c.tail + 1) % UART_XMIT_SIZE }, tx + 1)
        | 1 => ({ c with tail := (c.tail + 1) % UART_XMIT_SIZE }, tx + 1)
        | n + 2 =>
            tx_drain_loop { c with tail := (c.tail + 1) % UART_XMIT_SIZE } (tx + 1) (n + 1) := by
  have hm := land_xmit_mask (c.tail + 1)
  rcases count with _ | (_ | n)
  · simp only [tx_drain_loop, hm]
    split <;> rfl
  · simp only [tx_drain_loop, hm]
    split <;> rfl
  · simp only [tx_drain_loop, hm]
    rfl

/-- Master characterisation of the drain loop on a non-empty in-range
ring: it runs exactly `min pending (max count 1)` iterations, leaving the
store and producer index untouched, advancing the consumer index by that
many slots modulo the capacity, and adding that many to the transmit
counter. -/
theorem tx_drain_loop_spec (count : Nat) :
    ∀ (c : CircBuf) (tx : Nat),
      c.head < UART_XMIT_SIZE → c.tail < UART_XMIT_SIZE → c.head ≠ c.tail →
      (tx_drain_loop c tx count).1.buf = c.buf ∧
      (tx_drain_loop c tx count).1.head = c.head ∧
      (tx_drain_loop c tx count).1.tail =
        (c.tail + min (uart_circ_chars_pending c) (max count 1)) % UART_XMIT_SIZE ∧
      (tx_drain_loop c tx count).2 = tx + min (uart_circ_chars_pending c) (max count 1) := by
  induction count using Nat.strong_induction_on with
  | _ count ih =>
    intro c tx hh ht hne
    have hS : UART_XMIT_SIZE = 4096 := rfl
    rw [hS] at hh ht
    have hpend : uart_circ_chars_pending c = (c.head + 4096 - c.tail) % 4096 := by
      rw [uart_circ_chars_pending, hS]
    rw [tx_drain_loop_unfold]
    by_cases hemp : c.head = (c.tail + 1) % UART_XMIT_SIZE
    · have hP1 : uart_circ_chars_pending c = 1 := by rw [hpend]; rw [hS] at hemp; omega
      simp [hemp, hP1, hS]
    · rw [hS] at hemp
      have hP2 : 2 ≤ uart_circ_chars_pending c := by rw [hpend]; omega
      rcases count with _ | (_ | n)
      · simp [hS, hemp]
        omega
      · simp [hS, hemp]
        omega
      · have hlt : n + 1 < n + 2 := by omega
        obtain ⟨ib, ihd, itl, itx⟩ :=
          ih (n + 1) hlt { c with tail := (c.tail + 1) % UART_XMIT_SIZE } (tx + 1)
            (by simpa [hS] using hh)
            (by simp [hS]; omega)
            (by simp [hS]; exact hemp)
        have hP' : uart_circ_chars_pending { c with tail := (c.tail + 1) % UART_XMIT_SIZE } =
            uart_circ_chars_pending c - 1 := by
          rw [uart_circ_chars_pending, hS, hpend]; simp; omega
        simp only [hS] at ib ihd itl itx hP' ⊢
        rw [hP'] at itl itx
        simp [hemp, ib, ihd, itl, itx]
        constructor
        · omega
        · omega

/-- Behaviour of `tiny_tx_chars` when the drain actually runs: no pending
`x_char`, transmit not stopped, non-empty in-range ring. The number of
bytes removed is `min pending (max (fifosize/2) 1)`. -/
theorem tiny_tx_chars_drain (p : TxPort) (hx : p.x_char = 0)
    (hh : p.xmit.head < UART_XMIT_SIZE) (ht : p.xmit.tail < UART_XMIT_SIZE)
    (hne : p.xmit.head ≠ p.xmit.tail) :
    (tiny_tx_chars p false).1.xmit.buf = p.xmit.buf ∧
    (tiny_tx_chars p false).1.xmit.head = p.xmit.head ∧
    (tiny_tx_chars p false).1.xmit.tail =
      (p.xmit.tail + min (uart_circ_chars_pending p.xmit) (max (p.fifosize >>> 1) 1)) %
        UART_XMIT_SIZE ∧
    (tiny_tx_chars p false).1.icount_tx =
      p.icount_tx + min (uart_circ_chars_pending p.xmit) (max (p.fifosize >>> 1) 1) ∧
    (tiny_tx_chars p false).1.x_char = 0 ∧
    (tiny_tx_chars p false).1.fifosize = p.fifosize ∧
    uart_circ_chars_pending (tiny_tx_chars p false).1.xmit =
      uart_circ_chars_pending p.xmit -
        min (uart_circ_chars_pending p.xmit) (max (p.fifosize >>> 1) 1) ∧
    (tiny_tx_chars p false).2.wakeup =
      decide (uart_circ_chars_pending p.xmit -
        min (uart_circ_chars_pending p.xmit) (max (p.fifosize >>> 1) 1) < WAKEUP_CHARS) ∧
    (tiny_tx_chars p false).2.xchar = false := by
  obtain ⟨hb, hhd, htl, htx⟩ :=
    tx_drain_loop_spec (p.fifosize >>> 1) p.xmit p.icount_tx hh ht hne
  have hemp : uart_circ_empty p.xmit = false := by
    simp [uart_circ_empty]
    exact hne
  have hS : UART_XMIT_SIZE = 4096 := rfl
  have hpend2 :
      uart_circ_chars_pending (tx_drain_loop p.xmit p.icount_tx (p.fifosize >>> 1)).1 =
        uart_circ_chars_pending p.xmit -
          min (uart_circ_chars_pending p.xmit) (max (p.fifosize >>> 1) 1) := by
    simp only [hS] at htl hh ht
    simp only [uart_circ_chars_pending, hS, hhd, htl]
    omega
  simp [tiny_tx_chars, hx, hemp, hb, hhd, htl, htx, hpend2]

/-- C10: for every port and every transmit-buffer state, `tiny_tx_empty`
returns the constant 0, i.e. it always reports the transmitter as not
empty to the serial core, even when the transmit buffer holds no pending
bytes. -/
theorem tiny_tx_empty_always_zero (p : TxPort) : tiny_tx_empty p = 0 := rfl

/-- C5: if a pending `x_char` is queued when the drain runs, it is
consumed first: the transmitted-byte counter goes up by exactly one, the
`x_char` register is cleared to zero, and the firing ends with the main
transmit ring (head, tail and contents) untouched, no wakeup and no
`tiny_stop_tx` call. -/
theorem tiny_tx_chars_xchar_first (p : TxPort) (s : Bool) (hx : p.x_char ≠ 0) :
    (tiny_tx_chars p s).1.icount_tx = p.icount_tx + 1 ∧
    (tiny_tx_chars p s).1.x_char = 0 ∧
    (tiny_tx_chars p s).1.xmit = p.xmit ∧
    (tiny_tx_chars p s).2 = ⟨true, false, false⟩ := by
  simp [tiny_tx_chars, hx]

/-- Witness for C5 at a concrete port with `x_char = 1`. -/
theorem tiny_tx_chars_xchar_first_witness :
    (tiny_tx_chars ⟨1, 16, 0, ⟨fun _ => 0, 3, 0⟩⟩ false).1.icount_tx = 0 + 1 ∧
    (tiny_tx_chars ⟨1, 16, 0, ⟨fun _ => 0, 3, 0⟩⟩ false).1.x_char = 0 ∧
    (tiny_tx_chars ⟨1, 16, 0, ⟨fun _ => 0, 3, 0⟩⟩ false).1.xmit = ⟨fun _ => 0, 3, 0⟩ ∧
    (tiny_tx_chars ⟨1, 16, 0, ⟨fun _ => 0, 3, 0⟩⟩ false).2 = ⟨true, false, false⟩ :=
  tiny_tx_chars_xchar_first ⟨1, 16, 0, ⟨fun _ => 0, 3, 0⟩⟩ false (by decide)

/-- C8: the timer cleanup in `tiny_exit` never passes an allocated timer
object to `kfree` — the source guards the free with `if (!timer)`, so
`kfree` runs only when the pointer is already null and an allocated timer
is leaked at module unload. This theorem evaluates the cleanup at an
arbitrary allocated timer and shows the list of `kfree` calls is empty. -/
theorem tiny_exit_never_frees_allocated_timer (t : TimerObj) :
    tiny_exit (some t) = [] := rfl

/-- C7 counterexample: calling `tiny_shutdown` when the timer object was
never allocated is not a safe no-op — the unconditional `del_timer(timer)`
dereferences the null global pointer (modelled as the fault value). -/
theorem tiny_shutdown_null_counterexample :
    tiny_shutdown none = Except.error () := rfl

/-- C7 (amended): whenever the timer object has been allocated,
`tiny_shutdown` cancels any pending firing without deallocating the
object, and if the timer is not active it is a safe no-op; only a call
with the timer object never allocated dereferences a null pointer. -/
theorem tiny_shutdown_spec (t : TimerObj) :
    tiny_shutdown (some t) = Except.ok { t with armed := false } ∧
    (t.armed = false → tiny_shutdown (some t) = Except.ok t) := by
  constructor
  · rfl
  · intro h
    cases t
    simp_all [tiny_shutdown, del_timer]

/-- Witness for C7 at a concrete inactive allocated timer. -/
theorem tiny_shutdown_spec_witness :
    tiny_shutdown (some ⟨7, 40, false⟩) = Except.ok ⟨7, 40, false⟩ :=
  (tiny_shutdown_spec ⟨7, 40, false⟩).2 (by decide)

/-- C6: `tiny_startup` allocates the timer object only when none exists
(reuse across close/reopen never allocates); a needed allocation that
fails makes it return `-ENOMEM` with the global timer still null and no
further setup; any successful return arms the timer with the port
reference and expiry `now + DELAY_TIME`. -/
theorem tiny_startup_spec (t0 : Option TimerObj) (ok : Bool) (now HZ portRef : Nat) :
    (t0.isSome = true → (tiny_startup t0 ok now HZ portRef).freshAlloc = false) ∧
    (t0 = none → ok = false →
      tiny_startup t0 ok now HZ portRef = ⟨none, -ENOMEM, false⟩) ∧
    ((tiny_startup t0 ok now HZ portRef).ret = 0 →
      (tiny_startup t0 ok now HZ portRef).timer =
        some ⟨portRef, now + DELAY_TIME HZ, true⟩) := by
  rcases t0 with _ | t
  · rcases ok with _ | _
    · simp [tiny_startup]
      intro h
      rw [ENOMEM] at h
      omega
    · simp [tiny_startup]
  · simp [tiny_startup]

/-- Witness for C6: reuse of an existing timer object and the armed
result on success. -/
theorem tiny_startup_spec_witness :
    (tiny_startup (some ⟨0, 0, false⟩) true 50 100 9).freshAlloc = false ∧
    (tiny_startup (some ⟨0, 0, false⟩) true 50 100 9).timer =
      some ⟨9, 50 + DELAY_TIME 100, true⟩ :=
  ⟨(tiny_startup_spec (some ⟨0, 0, false⟩) true 50 100 9).1 (by decide),
   (tiny_startup_spec (some ⟨0, 0, false⟩) true 50 100 9).2.2 (by decide)⟩

/-- C3: on a live, open port (non-null port, state and tty) every firing
of `tiny_timer` performs exactly these observable calls in this order:
one injection of the synthetic byte (the constant 116, ASCII for the
letter t) into the receive path, the flush of the flip buffer, the
re-arming of the timer for `now + DELAY_TIME` (self-perpetuating, not
one-shot), and only then the transmit drain `tiny_tx_chars`. In
particular the injection happens exactly once per firing and precedes
the drain, and the re-arm precedes the drain. -/
theorem tiny_timer_live_fire (now HZ : Nat) (p : UartPort) (st : UartState) (s : Bool)
    (hst : p.state = some st) (htty : st.tty = some ()) :
    (tiny_timer now HZ (some p) s).2 =
      [Ev.insert_flip_char TINY_DATA_CHARACTER, Ev.flip_buffer_push,
       Ev.add_timer (now + DELAY_TIME HZ), Ev.tx_chars] := by
  simp [tiny_timer, hst, htty]

/-- Witness for C3 at a concrete live port. -/
theorem tiny_timer_live_fire_witness :
    (tiny_timer 5 100 (some ⟨0, 16, 0, some ⟨some (), ⟨fun _ => 0, 0, 0⟩⟩⟩) false).2 =
      [Ev.insert_flip_char TINY_DATA_CHARACTER, Ev.flip_buffer_push,
       Ev.add_timer (5 + DELAY_TIME 100), Ev.tx_chars] :=
  tiny_timer_live_fire 5 100 ⟨0, 16, 0, some ⟨some (), ⟨fun _ => 0, 0, 0⟩⟩⟩
    ⟨some (), ⟨fun _ => 0, 0, 0⟩⟩ false rfl rfl

/-- C4: if the timer fires when the port reference, the port's state or
the attached tty is no longer live, the callback is a silent no-op: no
observable call is made (no injection, no flush, no re-arm, no drain),
the port is left unchanged, and no error is surfaced (the callback just
returns). -/
theorem tiny_timer_stale_noop (now HZ : Nat) (port : Option UartPort) (s : Bool)
    (h : port = none ∨ (∃ p, port = some p ∧ p.state = none) ∨
         (∃ p st, port = some p ∧ p.state = some st ∧ st.tty = none)) :
    (tiny_timer now HZ port s).1 = port ∧ (tiny_timer now HZ port s).2 = [] := by
  rcases h with h | ⟨p, hp, hs⟩ | ⟨p, st, hp, hs, ht⟩
  · subst h
    simp [tiny_timer]
  · subst hp
    simp [tiny_timer, hs]
  · subst hp
    simp [tiny_timer, hs, ht]

/-- Witness for C4 with a stale (null) port reference. -/
theorem tiny_timer_stale_noop_witness :
    (tiny_timer 5 100 none false).1 = none ∧ (tiny_timer 5 100 none false).2 = [] :=
  tiny_timer_stale_noop 5 100 none false (Or.inl rfl)

/-- C9 counterexample: with the tick rate `HZ = 100`, arming at `now = 0`
yields expiry 200 ticks ahead, not 2 ticks — `DELAY_TIME` is `HZ * 2`
jiffies, i.e. two seconds, and one jiffy is the scheduler tick. -/
theorem delay_two_ticks_counterexample :
    (tiny_startup none true 0 100 7).timer = some ⟨7, 200, true⟩ ∧
    (200 : Nat) ≠ 0 + 2 := by decide

/-- C9 (amended): the delay used both when `tiny_startup` arms the timer
and when a live firing re-arms it is `DELAY_TIME = HZ * 2` ticks — two
seconds' worth of scheduler ticks, equal to 2 ticks only when `HZ = 1` —
so the armed expiry is always `now + HZ * 2`. -/
theorem delay_time_two_seconds (now HZ portRef : Nat) (t0 : Option TimerObj) (ok : Bool)
    (p : UartPort) (st : UartState) (s : Bool)
    (hst : p.state = some st) (htty : st.tty = some ()) :
    DELAY_TIME HZ = HZ * 2 ∧
    ((tiny_startup t0 ok now HZ portRef).ret = 0 →
      ∃ t, (tiny_startup t0 ok now HZ portRef).timer = some t ∧
        t.expires = now + HZ * 2) ∧
    Ev.add_timer (now + HZ * 2) ∈ (tiny_timer now HZ (some p) s).2 := by
  refine ⟨rfl, ?_, ?_⟩
  · intro h
    rcases t0 with _ | t
    · rcases ok with _ | _
      · exfalso
        rw [show tiny_startup none false now HZ portRef = ⟨none, -ENOMEM, false⟩ from rfl] at h
        rw [show (StartupResult.mk none (-ENOMEM) false).ret = -ENOMEM from rfl, ENOMEM] at h
        omega
      · exact ⟨⟨portRef, now + HZ * 2, true⟩, rfl, rfl⟩
    · exact ⟨⟨portRef, now + HZ * 2, true⟩, rfl, rfl⟩
  · simp [tiny_timer, hst, htty, DELAY_TIME]

/-- Witness for C9 at `HZ = 100`, `now = 3`. -/
theorem delay_time_two_seconds_witness :
    DELAY_TIME 100 = 100 * 2 ∧
    (∃ t, (tiny_startup none true 3 100 7).timer = some t ∧ t.expires = 3 + 100 * 2) ∧
    Ev.add_timer (3 + 100 * 2) ∈
      (tiny_timer 3 100 (some ⟨0, 16, 0, some ⟨some (), ⟨fun _ => 0, 0, 0⟩⟩⟩) false).2 := by
  have h := delay_time_two_seconds 3 100 7 none true
      ⟨0, 16, 0, some ⟨some (), ⟨fun _ => 0, 0, 0⟩⟩⟩ ⟨some (), ⟨fun _ => 0, 0, 0⟩⟩ false rfl rfl
  exact ⟨h.1, h.2.1 rfl, h.2.2⟩

/-- C1 counterexample: a firing whose drain runs while the pending count
is already below the low-water mark still signals wakeup. With 2 bytes
pending (below `WAKEUP_CHARS`) the drain removes them and
`uart_write_wakeup` is called, because the source tests only the
post-drain level, not a crossing. -/
theorem wakeup_already_below_counterexample :
    uart_circ_chars_pending (⟨fun _ => 0, 2, 0⟩ : CircBuf) < WAKEUP_CHARS ∧
    (tiny_tx_chars ⟨0, 16, 0, ⟨fun _ => 0, 2, 0⟩⟩ false).2.wakeup = true := by decide

/-- C1 (amended): the wakeup signal is emitted exactly on firings whose
drain runs (no pending `x_char`, transmit not stopped, buffer non-empty)
and leaves the pending count below `WAKEUP_CHARS` — whether or not the
count was already below the mark before the drain; firings that skip the
drain never signal wakeup. -/
theorem tiny_tx_chars_wakeup_spec (p : TxPort) (s : Bool)
    (hh : p.xmit.head < UART_XMIT_SIZE) (ht : p.xmit.tail < UART_XMIT_SIZE) :
    ((p.x_char ≠ 0 ∨ uart_circ_empty p.xmit = true ∨ s = true) →
      (tiny_tx_chars p s).2.wakeup = false) ∧
    (p.x_char = 0 → s = false → p.xmit.head ≠ p.xmit.tail →
      ((tiny_tx_chars p s).2.wakeup = true ↔
        uart_circ_chars_pending p.xmit -
          min (uart_circ_chars_pending p.xmit) (max (p.fifosize >>> 1) 1) <
          WAKEUP_CHARS)) := by
  constructor
  · rintro (hx | hemp | hs)
    · simp [tiny_tx_chars, hx]
    · by_cases hx : p.x_char = 0
      · simp [tiny_tx_chars, hx, hemp]
      · simp [tiny_tx_chars, hx]
    · by_cases hx : p.x_char = 0
      · simp [tiny_tx_chars, hx, hs]
      · simp [tiny_tx_chars, hx]
  · intro hx hs hne
    subst hs
    obtain ⟨-, -, -, -, -, -, -, hw, -⟩ := tiny_tx_chars_drain p hx hh ht hne
    rw [hw]
    simp

/-- Witness for C1 at the spec's first-firing shape: 10 bytes pending,
fifosize 16, so 8 bytes drain and wakeup fires. -/
theorem tiny_tx_chars_wakeup_spec_witness :
    (tiny_tx_chars ⟨0, 16, 0, ⟨fun _ => 0, 10, 0⟩⟩ false).2.wakeup = true := by
  have h := (tiny_tx_chars_wakeup_spec ⟨0, 16, 0, ⟨fun _ => 0, 10, 0⟩⟩ false
      (by decide) (by decide)).2 rfl rfl (by decide)
  exact h.mpr (by decide)

set_option maxRecDepth 40000 in
/-- C2 counterexample: a single drain invocation can remove more than
`capacity/2 = UART_XMIT_SIZE/2` bytes — with `fifosize = 8192` the loop
budget is 4096 and a ring holding 2049 pending bytes is drained whole. -/
theorem drain_exceeds_half_capacity_counterexample :
    (tiny_tx_chars ⟨0, 8192, 0, ⟨fun _ => 0, 2049, 0⟩⟩ false).1.icount_tx = 2049 ∧
    UART_XMIT_SIZE / 2 < 2049 := by decide

/-- C2 (amended): for every buffer state and fifosize, a drain invocation
with no `x_char` and transmit not stopped removes exactly
`min pending (max (fifosize/2) 1)` bytes — hence at most
`max (fifosize/2) 1` (which is at most `capacity/2` whenever
`2 ≤ fifosize ≤ capacity`), and never more than were pending, so the
consuming index never passes the producing index. The consuming index
advances modulo the capacity once per byte removed, the transmitted-byte
counter goes up once per byte removed, stopping short of the loop budget
happens only by emptying the buffer, and an invocation on an empty buffer
removes nothing and leaves the port unchanged. -/
theorem tiny_tx_chars_drain_invariants (p : TxPort) (hx : p.x_char = 0)
    (hh : p.xmit.head < UART_XMIT_SIZE) (ht : p.xmit.tail < UART_XMIT_SIZE) :
    (uart_circ_empty p.xmit = true → tiny_tx_chars p false = (p, ⟨false, false, true⟩)) ∧
    (p.xmit.head ≠ p.xmit.tail →
      (tiny_tx_chars p false).1.icount_tx =
        p.icount_tx + min (uart_circ_chars_pending p.xmit) (max (p.fifosize >>> 1) 1) ∧
      min (uart_circ_chars_pending p.xmit) (max (p.fifosize >>> 1) 1) ≤
        max (p.fifosize >>> 1) 1 ∧
      min (uart_circ_chars_pending p.xmit) (max (p.fifosize >>> 1) 1) ≤
        uart_circ_chars_pending p.xmit ∧
      (tiny_tx_chars p false).1.xmit.tail =
        (p.xmit.tail + min (uart_circ_chars_pending p.xmit) (max (p.fifosize >>> 1) 1)) %
          UART_XMIT_SIZE ∧
      (tiny_tx_chars p false).1.xmit.head = p.xmit.head ∧
      (tiny_tx_chars p false).1.xmit.buf = p.xmit.buf ∧
      uart_circ_chars_pending (tiny_tx_chars p false).1.xmit =
        uart_circ_chars_pending p.xmit -
          min (uart_circ_chars_pending p.xmit) (max (p.fifosize >>> 1) 1) ∧
      (min (uart_circ_chars_pending p.xmit) (max (p.fifosize >>> 1) 1) <
          max (p.fifosize >>> 1) 1 →
        uart_circ_chars_pending (tiny_tx_chars p false).1.xmit = 0)) := by
  constructor
  · intro hemp
    simp [tiny_tx_chars, hx, hemp]
  · intro hne
    obtain ⟨hb, hhd, htl, hcnt, -, -, hpend, -, -⟩ := tiny_tx_chars_drain p hx hh ht hne
    refine ⟨hcnt, Nat.min_le_right _ _, Nat.min_le_left _ _, htl, hhd, hb, hpend, ?_⟩
    intro hlt
    rw [hpend]
    omega

/-- Witness for C2 at a concrete empty buffer: the drain is a no-op. -/
theorem tiny_tx_chars_drain_invariants_witness :
    tiny_tx_chars ⟨0, 16, 4, ⟨fun _ => 0, 5, 5⟩⟩ false =
      (⟨0, 16, 4, ⟨fun _ => 0, 5, 5⟩⟩, ⟨false, false, true⟩) :=
  (tiny_tx_chars_drain_invariants ⟨0, 16, 4, ⟨fun _ => 0, 5, 5⟩⟩ rfl
    (by decide) (by decide)).1 rfl
